import Mathlib

set_option maxRecDepth 100000

/-!
Verification of the RECI-RPDValidator reference-integrity engine
(`rpdvalidator/validate.py`) over a shallow embedding.

The document model, path-expression parser/evaluator (`find_all`,
`find_all_by_jsonpaths`), list-path discovery (`json_paths_to_lists`) and the
path-locator utilities live in `rpdvalidator/jsonpath_utils.py`, which is not
part of the provided sources; those definitions are modelled from the
specification (sections 3, 4.1-4.4, 6, 7) and are marked as such.  Every
check function and the orchestrator `validate_references` are translated
directly from `rpdvalidator/validate.py`.
-/

namespace RPD

/-- A parsed JSON document node: Python dicts become `obj` (association list,
first binding wins on lookup), lists become `arr`, scalars keep their kind. -/
inductive Json where
  | null : Json
  | bool : Bool → Json
  | num : Int → Json
  | str : String → Json
  | arr : List Json → Json
  | obj : List (String × Json) → Json
deriving Inhabited

mutual

/-- Structural equality of document nodes (Python `==` on parsed JSON, for the
scalar and array shapes that identifier values take). -/
def Json.beq : Json → Json → Bool
  | .null, .null => true
  | .bool a, .bool b => a == b
  | .num a, .num b => a == b
  | .str a, .str b => a == b
  | .arr a, .arr b => Json.beqArr a b
  | .obj a, .obj b => Json.beqObj a b
  | _, _ => false

def Json.beqArr : List Json → List Json → Bool
  | [], [] => true
  | a :: as, b :: bs => Json.beq a b && Json.beqArr as bs
  | _, _ => false

def Json.beqObj : List (String × Json) → List (String × Json) → Bool
  | [], [] => true
  | (ka, va) :: as, (kb, vb) :: bs => ka == kb && Json.beq va vb && Json.beqObj as bs
  | _, _ => false

end

mutual

theorem Json.beq_iff : ∀ a b : Json, Json.beq a b = true ↔ a = b
  | .null, b => by cases b <;> simp [Json.beq]
  | .bool x, b => by cases b <;> simp [Json.beq]
  | .num x, b => by cases b <;> simp [Json.beq]
  | .str x, b => by cases b <;> simp [Json.beq]
  | .arr xs, b => by
      cases b <;> simp [Json.beq]
      exact Json.beqArr_iff xs _
  | .obj xs, b => by
      cases b <;> simp [Json.beq]
      exact Json.beqObj_iff xs _

theorem Json.beqArr_iff : ∀ a b : List Json, Json.beqArr a b = true ↔ a = b
  | [], b => by cases b <;> simp [Json.beqArr]
  | x :: xs, b => by
      cases b with
      | nil => simp [Json.beqArr]
      | cons y ys =>
          simp [Json.beqArr, Bool.and_eq_true, Json.beq_iff x y, Json.beqArr_iff xs ys]

theorem Json.beqObj_iff : ∀ a b : List (String × Json), Json.beqObj a b = true ↔ a = b
  | [], b => by cases b <;> simp [Json.beqObj]
  | (k, v) :: xs, b => by
      cases b with
      | nil => simp [Json.beqObj]
      | cons y ys =>
          obtain ⟨k2, v2⟩ := y
          simp [Json.beqObj, Bool.and_eq_true, Json.beq_iff v v2, Json.beqObj_iff xs ys,
            and_assoc]

end

instance : DecidableEq Json := fun a b =>
  decidable_of_iff (Json.beq a b = true) (Json.beq_iff a b)

/-- Python `dict` lookup on the association-list representation. -/
def lookupField (key : String) : List (String × Json) → Option Json
  | [] => none
  | (k, v) :: rest => if k = key then some v else lookupField key rest

/-- One step of the restricted JSONPath dialect (spec section 3): a literal
field selection or an array wildcard `[*]`. -/
inductive Step where
  | field : String → Step
  | wildcard : Step
deriving DecidableEq, Inhabited

/-- Reads a field name: the characters up to the next `.` or `[` delimiter. -/
def readName : List Char → List Char × List Char
  | [] => ([], [])
  | c :: cs =>
      if c = '.' ∨ c = '[' then ([], c :: cs)
      else
        let (n, r) := readName cs
        (c :: n, r)

/-- Modelled from the spec: the step tokenizer of `find_all`
(`rpdvalidator/jsonpath_utils.py`, absent from the sources).  Section 4.1:
"split the textual expression into Steps on `.` and `[*]` delimiters;
unrecognized delimiters (any bracketed content other than `*`) are a parse
error."  Returns `none` on a malformed expression.  The recursion is
structural on a fuel argument; `readName` never lengthens its input, so fuel
equal to the character count (as `parseSegs` passes) never runs out. -/
def parseSegsF : Nat → List Char → Option (List Step)
  | _, [] => some []
  | fuel + 1, '.' :: cs =>
      if (readName cs).1 = [] then none
      else
        (parseSegsF fuel (readName cs).2).map
          (fun steps => Step.field (String.mk (readName cs).1) :: steps)
  | fuel + 1, '[' :: '*' :: ']' :: cs =>
      (parseSegsF fuel cs).map (fun steps => Step.wildcard :: steps)
  | _ + 1, _ => none
  | 0, _ :: _ => none

/-- The tokenizer at its always-sufficient fuel. -/
def parseSegs (cs : List Char) : Option (List Step) := parseSegsF cs.length cs

/-- Modelled from the spec: the parser of `find_all`.  A leading `$` denotes
the document root; otherwise the expression starts with a bare field name. -/
def parseJsonPath (s : String) : Option (List Step) :=
  match s.data with
  | [] => none
  | '$' :: cs => parseSegs cs
  | cs =>
      let (n, r) := readName cs
      if n = [] then none
      else (parseSegs r).map (fun steps => Step.field (String.mk n) :: steps)

/-- Modelled from the spec (section 4.1): applying one Step to one node.
Non-matches are silent: a `field` step on a non-object or on an object lacking
the name, and a `wildcard` step on a non-array, contribute zero results. -/
def applyStep : Step → Json → List Json
  | Step.field name, Json.obj fields =>
      match lookupField name fields with
      | some v => [v]
      | none => []
  | Step.field _, _ => []
  | Step.wildcard, Json.arr xs => xs
  | Step.wildcard, _ => []

/-- Modelled from the spec (section 4.1): each Step is applied to every node of
the working set in order, starting from the singleton root working set. -/
def evalSteps : List Step → List Json → List Json
  | [], nodes => nodes
  | s :: rest, nodes => evalSteps rest (nodes.flatMap (applyStep s))

/-- Modelled from the spec (sections 4.1, 6, 7): `find_all` from
`rpdvalidator/jsonpath_utils.py` (absent from the sources).  It fails with
`MalformedExpression` exactly when the expression text cannot be parsed, and
otherwise evaluates totally on any document. -/
def find_all (expr : String) (doc : Json) : Except String (List Json) :=
  match parseJsonPath expr with
  | none => Except.error "MalformedExpression"
  | some steps => Except.ok (evalSteps steps [doc])

/-- The value `find_all` returns on the well-formed expressions that
`validate.py` hard-codes (empty on a malformed expression; every literal path
in `validate.py` parses, so the checks below never hit that branch). -/
def findAllD (expr : String) (doc : Json) : List Json :=
  match parseJsonPath expr with
  | none => []
  | some steps => evalSteps steps [doc]

/-- Modelled from the spec (section 4.2): `find_all_by_jsonpaths` from
`rpdvalidator/jsonpath_utils.py` (absent from the sources): the concatenation
of `find_all` over the expressions in declaration order, propagating a
`MalformedExpression` failure. -/
def find_all_by_jsonpaths : List String → Json → Except String (List Json)
  | [], _ => Except.ok []
  | e :: rest, doc => do
      let v ← find_all e doc
      let vs ← find_all_by_jsonpaths rest doc
      pure (v ++ vs)

/-- The list `find_all_by_jsonpaths` returns on well-formed expressions. -/
def findAllManyD (exprs : List String) (doc : Json) : List Json :=
  exprs.flatMap (fun e => findAllD e doc)

/-- One component of a Concrete Traversal Path (spec section 3): a field name
or a concrete array index, as reported by the external structural validator. -/
inductive PathKey where
  | key : String → PathKey
  | idx : Nat → PathKey
deriving DecidableEq, Inhabited

/-- Follows a concrete traversal path down the document; `none` when a key or
index is absent. -/
def navigate : Json → List PathKey → Option Json
  | j, [] => some j
  | Json.obj fields, PathKey.key k :: rest =>
      match lookupField k fields with
      | some v => navigate v rest
      | none => none
  | Json.arr xs, PathKey.idx i :: rest =>
      match xs[i]? with
      | some v => navigate v rest
      | none => none
  | _, _ :: _ => none

/-- Modelled from the spec: `convert_absolute_path_list_to_jsonpath` from
`rpdvalidator/jsonpath_utils.py` (absent from the sources).  Section 4.3:
render a traversal path as a textual Path Expression, each array index
becoming the literal `[*]` and each field name a dotted step. -/
def toExpression (p : List PathKey) : String :=
  "$" ++ String.join (p.map (fun k =>
    match k with
    | PathKey.key name => "." ++ name
    | PathKey.idx _ => "[*]"))

/-- Whether a node is an Object that carries a field named `id`. -/
def hasIdField : Json → Bool
  | Json.obj fields => (lookupField "id" fields).isSome
  | _ => false

/-- Whether the Object reached by the first `len` components of `p` has a
sibling field named `id`. -/
def hasIdAt (doc : Json) (p : List PathKey) (len : Nat) : Bool :=
  match navigate doc (p.take len) with
  | some j => hasIdField j
  | none => false

/-- Scans candidate prefix lengths `len, len-1, ..., 1`, returning the largest
one whose Object carries an `id` field. -/
def nearestIdScan (doc : Json) (p : List PathKey) : Nat → Option Nat
  | 0 => none
  | len + 1 =>
      if hasIdAt doc p (len + 1) then some (len + 1)
      else nearestIdScan doc p len

/-- Modelled from the spec: `format_jsonpath_with_id` from
`rpdvalidator/jsonpath_utils.py` (absent from the sources).  Section 4.3:
scanning from the end of `p` toward the root, find the longest prefix whose
Object has a sibling field named `id`; if found, return the Path Expression
for that prefix extended with `id`; otherwise (including when `p` is empty)
return nothing. -/
def to_nearest_id_expression (doc : Json) (p : List PathKey) : Option String :=
  (nearestIdScan doc p p.length).map
    (fun len => toExpression (p.take len ++ [PathKey.key "id"]))

mutual

/-- Modelled from the spec: the recursive walk behind `json_paths_to_lists`
from `rpdvalidator/jsonpath_utils.py` (absent from the sources).  Section 4.4:
at an Object recurse into each field appending a Field step; at an Array
record the current generalized path and recurse into each element with a
Wildcard step appended, never a concrete index. -/
def jsonPathsToListsAux : Json → String → List String
  | Json.obj fields, pre => jsonPathsToListsObj fields pre
  | Json.arr xs, pre => pre :: jsonPathsToListsArr xs (pre ++ "[*]")
  | _, _ => []

def jsonPathsToListsObj : List (String × Json) → String → List String
  | [], _ => []
  | (k, v) :: rest, pre => jsonPathsToListsAux v (pre ++ "." ++ k) ++ jsonPathsToListsObj rest pre

def jsonPathsToListsArr : List Json → String → List String
  | [], _ => []
  | x :: rest, pre => jsonPathsToListsAux x pre ++ jsonPathsToListsArr rest pre

end

/-- Modelled from the spec: `json_paths_to_lists` from
`rpdvalidator/jsonpath_utils.py` (absent from the sources): every distinct
generalized path leading to a list, deduplicated by shape (section 4.4). -/
def json_paths_to_lists (doc : Json) : List String :=
  (jsonPathsToListsAux doc "$").dedup

/-- Python string slicing `s[n:]` (by code points, as Python indexes). -/
def pyDrop (s : String) (n : Nat) : String := String.mk (s.data.drop n)

/-- The single-quote character, used by Python `repr` of a string. -/
def squote : String := String.mk [Char.ofNat 39]

mutual

/-- Python `str()`/`repr()` of a parsed-JSON value, as an f-string renders the
mismatch lists of `validate_references` (identifier values are scalars or
lists of scalars in practice; string escaping inside `repr` is not modelled). -/
def pyReprJson : Json → String
  | Json.null => "None"
  | Json.bool true => "True"
  | Json.bool false => "False"
  | Json.num n => toString n
  | Json.str s => squote ++ s ++ squote
  | Json.arr xs => "[" ++ pyReprCommaSep xs ++ "]"
  | Json.obj ms => "\x7b" ++ pyReprMembers ms ++ "\x7d"

def pyReprCommaSep : List Json → String
  | [] => ""
  | [x] => pyReprJson x
  | x :: rest => pyReprJson x ++ ", " ++ pyReprCommaSep rest

def pyReprMembers : List (String × Json) → String
  | [] => ""
  | [(k, v)] => squote ++ k ++ squote ++ ": " ++ pyReprJson v
  | (k, v) :: rest => squote ++ k ++ squote ++ ": " ++ pyReprJson v ++ ", " ++ pyReprMembers rest

end

/-- Python `repr` of a list value, as `f"{mismatch_list}"` renders it. -/
def pyReprList (xs : List Json) : String := pyReprJson (Json.arr xs)

/-- The accumulation loop shared by every dangling-reference check in
`validate.py`: walk `referenced` in order and append each value not contained
in `ids` to the mismatch list. -/
def danglingLoop (referenced : List Json) (ids : List Json) : List Json :=
  referenced.foldl (fun acc v => if v ∈ ids then acc else acc ++ [v]) []

/-- The primary-id paths of `check_fluid_loop_association` (`validate.py`). -/
def fluid_loop_id_jsonpaths : List String :=
  ["$.ruleset_model_descriptions[*].fluid_loops[*].id",
   "$.ruleset_model_descriptions[*].fluid_loops[*].child_loops[*].id"]

/-- The reference path duplicated in `fluid_reference_jsonpaths`
(`validate.py` lines 122 and 125). -/
def swh_hot_water_loop_jsonpath : String :=
  "$.ruleset_model_descriptions[*].service_water_heating_equipment[*].hot_water_loop"

/-- The reference paths of `check_fluid_loop_association`, in declaration
order; `swh_hot_water_loop_jsonpath` appears twice, as in the source. -/
def fluid_reference_jsonpaths : List String :=
  ["$.ruleset_model_descriptions[*].chillers[*].cooling_loop",
   "$.ruleset_model_descriptions[*].chillers[*].condensing_loop",
   "$.ruleset_model_descriptions[*].chillers[*].heat_recovery_loop",
   "$.ruleset_model_descriptions[*].buildings[*].building_segments[*].heating_ventilating_air_conditioning_systems[*].heating_system.hot_water_loop",
   "$.ruleset_model_descriptions[*].buildings[*].building_segments[*].heating_ventilating_air_conditioning_systems[*].heating_system.water_source_heat_pump_loop",
   "$.ruleset_model_descriptions[*].buildings[*].building_segments[*].heating_ventilating_air_conditioning_systems[*].cooling_system.chilled_water_loop",
   "$.ruleset_model_descriptions[*].buildings[*].building_segments[*].heating_ventilating_air_conditioning_systems[*].cooling_system.condenser_water_loop",
   "$.ruleset_model_descriptions[*].buildings[*].building_segments[*].zones[*].spaces[*].miscellaneous_equipment[*].energy_from_loop",
   "$.ruleset_model_descriptions[*].buildings[*].building_segments[*].zones[*].spaces[*].miscellaneous_equipment[*].remaining_fraction_to_loop",
   "$.ruleset_model_descriptions[*].buildings[*].building_segments[*].zones[*].terminals[*].cooling_from_loop",
   "$.ruleset_model_descriptions[*].buildings[*].building_segments[*].zones[*].terminals[*].heating_from_loop",
   swh_hot_water_loop_jsonpath,
   "$.ruleset_model_descriptions[*].heat_rejections[*].loop",
   "$.ruleset_model_descriptions[*].boilers[*].loop",
   swh_hot_water_loop_jsonpath,
   "$.ruleset_model_descriptions[*].external_fluid_sources[*].loop"]

/-- Embeds `check_fluid_loop_association` from `validate.py`. -/
def check_fluid_loop_association (rpd : Json) : List Json :=
  danglingLoop (findAllManyD fluid_reference_jsonpaths rpd)
    (findAllManyD fluid_loop_id_jsonpaths rpd)

/-- The reference paths of `check_zone_association` (`validate.py`). -/
def zone_reference_jsonpaths : List String :=
  ["$.ruleset_model_descriptions[*].buildings[*].elevators[*].motor_location_zone",
   "$.ruleset_model_descriptions[*].buildings[*].elevators[*].cab_location_zone",
   "$.ruleset_model_descriptions[*].buildings[*].refrigerated_cases[*].zone",
   "$.ruleset_model_descriptions[*].service_water_heating_equipment[*].compressor_zone",
   "$.ruleset_model_descriptions[*].service_water_heating_equipment[*].compressor_heat_rejection_zone",
   "$.ruleset_model_descriptions[*].buildings[*].building_segments[*].zones[*].zonal_exhaust_fan.motor_location_zone",
   "$.ruleset_model_descriptions[*].buildings[*].building_segments[*].zones[*].terminals[*].fan.motor_location_zone",
   "$.ruleset_model_descriptions[*].buildings[*].building_segments[*].heating_ventilating_air_conditioning_systems[*].fan_system.supply_fans[*].motor_location_zone",
   "$.ruleset_model_descriptions[*].buildings[*].building_segments[*].heating_ventilating_air_conditioning_systems[*].fan_system.return_fans[*].motor_location_zone",
   "$.ruleset_model_descriptions[*].buildings[*].building_segments[*].heating_ventilating_air_conditioning_systems[*].fan_system.relief_fans[*].motor_location_zone",
   "$.ruleset_model_descriptions[*].buildings[*].building_segments[*].heating_ventilating_air_conditioning_systems[*].fan_system.exhaust_fans[*].motor_location_zone",
   "$.ruleset_model_descriptions[*].service_water_heating_equipment[*].tank.location_zone",
   "$.ruleset_model_descriptions[*].service_water_heating_equipment[*].solar_thermal_systems[*].tank.location_zone",
   "$.ruleset_model_descriptions[*].service_water_heating_distribution_systems[*].tanks[*].location_zone",
   "$.ruleset_model_descriptions[*].buildings[*].building_segments[*].zones[*].surfaces[*].adjacent_zone",
   "$.ruleset_model_descriptions[*].buildings[*].building_segments[*].zones[*].transfer_airflow_source_zone",
   "$.ruleset_model_descriptions[*].service_water_heating_distribution_systems[*].service_water_piping[*].location_zone"]

/-- Embeds `check_zone_association` from `validate.py`. -/
def check_zone_association (rpd : Json) : List Json :=
  danglingLoop (findAllManyD zone_reference_jsonpaths rpd)
    (findAllD "$.ruleset_model_descriptions[*].buildings[*].building_segments[*].zones[*].id" rpd)

/-- The reference paths of `check_schedule_association` (`validate.py`). -/
def schedule_reference_jsonpaths : List String :=
  ["$.ruleset_model_descriptions[*].buildings[*].elevators[*].cab_motor_multiplier_schedule",
   "$.ruleset_model_descriptions[*].buildings[*].elevators[*].cab_ventilation_fan_multiplier_schedule",
   "$.ruleset_model_descriptions[*].buildings[*].elevators[*].cab_lighting_multiplier_schedule",
   "$.ruleset_model_descriptions[*].buildings[*].refrigerated_cases[*].power_multiplier_schedule",
   "$.ruleset_model_descriptions[*].buildings[*].exterior_lighting[*].multiplier_schedule",
   "$.ruleset_model_descriptions[*].buildings[*].building_segments[*].zones[*].infiltration.multiplier_schedule",
   "$.ruleset_model_descriptions[*].buildings[*].building_segments[*].zones[*].thermostat_cooling_setpoint_schedule",
   "$.ruleset_model_descriptions[*].buildings[*].building_segments[*].zones[*].thermostat_heating_setpoint_schedule",
   "$.ruleset_model_descriptions[*].buildings[*].building_segments[*].zones[*].minimum_humidity_setpoint_schedule",
   "$.ruleset_model_descriptions[*].buildings[*].building_segments[*].zones[*].maximum_humidity_setpoint_schedule",
   "$.ruleset_model_descriptions[*].buildings[*].building_segments[*].zones[*].exhaust_airflow_rate_multiplier_schedule",
   "$.ruleset_model_descriptions[*].buildings[*].building_segments[*].zones[*].spaces[*].occupant_multiplier_schedule",
   "$.ruleset_model_descriptions[*].buildings[*].building_segments[*].zones[*].spaces[*].interior_lighting[*].lighting_multiplier_schedule",
   "$.ruleset_model_descriptions[*].service_water_heating_distribution_systems[*].flow_multiplier_schedule",
   "$.ruleset_model_descriptions[*].service_water_heating_distribution_systems[*].entering_water_mains_temperature_schedule",
   "$.ruleset_model_descriptions[*].buildings[*].building_segments[*].zones[*].spaces[*].service_water_heating_uses[*].use_multiplier_schedule",
   "$.ruleset_model_descriptions[*].buildings[*].building_open_schedule",
   "$.ruleset_model_descriptions[*].buildings[*].building_segments[*].zones[*].terminals[*].minimum_outdoor_airflow_multiplier_schedule",
   "$.ruleset_model_descriptions[*].buildings[*].building_segments[*].zones[*].spaces[*].miscellaneous_equipment[*].multiplier_schedule",
   "$.ruleset_model_descriptions[*].fluid_loops[*].cooling_or_condensing_design_and_control.operation_schedule",
   "$.ruleset_model_descriptions[*].fluid_loops[*].heating_design_and_control.operation_schedule",
   "$.ruleset_model_descriptions[*].fluid_loops[*].child_loops[*].cooling_or_condensing_design_and_control.operation_schedule",
   "$.ruleset_model_descriptions[*].fluid_loops[*].child_loops[*].heating_design_and_control.operation_schedule",
   "$.ruleset_model_descriptions[*].heating_ventilation_air_conditioning_systems[*].fan_system.supply_air_temperature_reset_schedule",
   "$.ruleset_model_descriptions[*].heating_ventilation_air_conditioning_systems[*].fan_system.operating_schedule"]

/-- Embeds `check_schedule_association` from `validate.py`. -/
def check_schedule_association (rpd : Json) : List Json :=
  danglingLoop (findAllManyD schedule_reference_jsonpaths rpd)
    (findAllD "$.ruleset_model_descriptions[*].schedules[*].id" rpd)

/-- The primary-id paths of `check_fluid_loop_or_piping_association`. -/
def fluid_loop_or_piping_id_jsonpaths : List String :=
  ["$.ruleset_model_descriptions[*].fluid_loops[*].id",
   "$.ruleset_model_descriptions[*].service_water_heating_distribution_systems[*].service_water_piping[*].id",
   "$.ruleset_model_descriptions[*].fluid_loops[*].child_loops[*].id"]

/-- Embeds `check_fluid_loop_or_piping_association` from `validate.py`. -/
def check_fluid_loop_or_piping_association (rpd : Json) : List Json :=
  danglingLoop (findAllD "$.ruleset_model_descriptions[*].pumps[*].loop_or_piping" rpd)
    (findAllManyD fluid_loop_or_piping_id_jsonpaths rpd)

/-- The reference paths of `check_service_water_heating_association`. -/
def service_water_heating_reference_jsonpaths : List String :=
  ["$.ruleset_model_descriptions[*].buildings[*].building_segments[*].zones[*].spaces[*].service_water_heating_uses[*].served_by_distribution_system",
   "$.ruleset_model_descriptions[*].buildings[*].building_segments[*].zones[*].served_by_service_water_heating_system",
   "$.ruleset_model_descriptions[*].service_water_heating_equipment[*].distribution_system"]

/-- Embeds `check_service_water_heating_association` from `validate.py`. -/
def check_service_water_heating_association (rpd : Json) : List Json :=
  danglingLoop (findAllManyD service_water_heating_reference_jsonpaths rpd)
    (findAllD "$.ruleset_model_descriptions[*].service_water_heating_distribution_systems[*].id" rpd)

/-- Embeds `check_hvac_association` from `validate.py`. -/
def check_hvac_association (rpd : Json) : List Json :=
  danglingLoop
    (findAllD "$.ruleset_model_descriptions[*].buildings[*].building_segments[*].zones[*].terminals[*].served_by_heating_ventilating_air_conditioning_system" rpd)
    (findAllD "$.ruleset_model_descriptions[*].buildings[*].building_segments[*].heating_ventilating_air_conditioning_systems[*].id" rpd)

/-- Embeds `rpd.get("ruleset_model_descriptions", [])` from
`check_unique_ids_in_ruleset_model_descriptions`: the list of ruleset model
description instances, defaulting to empty when the field is absent.  (The
Python function's domain is documents whose value there, if present, is a
list; other shapes would raise before the check runs and are mapped to `[]`
here, outside every theorem's hypotheses.) -/
def rmdsOf (rpd : Json) : List Json :=
  match rpd with
  | Json.obj fields =>
      match lookupField "ruleset_model_descriptions" fields with
      | some (Json.arr xs) => xs
      | some _ => []
      | none => []
  | _ => []

/-- The absolute bad-path text built in
`check_unique_ids_in_ruleset_model_descriptions`:
`f"ruleset_model_descriptions[{rmi_index}]{list_path[1:]}"`. -/
def badPathFmt (rmiIndex : Nat) (listPath : String) : String :=
  "ruleset_model_descriptions[" ++ toString rmiIndex ++ "]" ++ pyDrop listPath 1

/-- The inner loop of `check_unique_ids_in_ruleset_model_descriptions` for one
ruleset model description instance: for each discovered list path, evaluate
`list_path + "[*].id"` and flag the path when the ids are not distinct
(`len(ids) != len(set(ids))`). -/
def badPathsForRmi (rmiIndex : Nat) (rmi : Json) : List String :=
  (json_paths_to_lists rmi).filterMap (fun listPath =>
    let ids := findAllD (listPath ++ "[*].id") rmi
    if ids.length ≠ ids.dedup.length then some (badPathFmt rmiIndex listPath) else none)

/-- The `bad_paths` accumulator of
`check_unique_ids_in_ruleset_model_descriptions`, over all instances in
order. -/
def badPathsList (rpd : Json) : List String :=
  (rmdsOf rpd).enum.flatMap (fun p => badPathsForRmi p.1 p.2)

/-- Embeds `check_unique_ids_in_ruleset_model_descriptions` from `validate.py`:
returns the formatted error message, or the empty string when every id is
unique. -/
def check_unique_ids_in_ruleset_model_descriptions (rpd : Json) : String :=
  let bad_paths := badPathsList rpd
  if bad_paths.isEmpty then ""
  else "Non-unique ids for paths: " ++ String.intercalate "; " bad_paths

/-- The dictionary `validate_references` returns: the `passed` flag and the
`error` value (`None` when the error list stayed empty). -/
structure ValidationResult where
  passed : Bool
  error : Option (List String)
deriving DecidableEq

/-- Embeds `validate_references` from `validate.py`, step for step: each check runs
in order, `passed` is and-ed with the emptiness of its result, and one message
is appended per failing check.  The piping message interpolates
`mismatch_schedule_errors`, as the source does on line 464. -/
def validate_references (rpd : Json) : ValidationResult :=
  let error0 : List String := []
  let unique_id_error := check_unique_ids_in_ruleset_model_descriptions rpd
  let passed1 := unique_id_error == ""
  let error1 := if unique_id_error == "" then error0 else error0 ++ [unique_id_error]
  let mismatch_hvac_errors := check_hvac_association rpd
  let passed2 := passed1 && mismatch_hvac_errors.isEmpty
  let error2 :=
    if mismatch_hvac_errors.isEmpty then error1
    else error1 ++ ["Cannot find HVAC systems " ++ pyReprList mismatch_hvac_errors ++
      " in the HeatingVentilationAirConditioningSystems data group."]
  let mismatch_zone_errors := check_zone_association rpd
  let passed3 := passed2 && mismatch_zone_errors.isEmpty
  let error3 :=
    if mismatch_zone_errors.isEmpty then error2
    else error2 ++ ["Cannot find zones " ++ pyReprList mismatch_zone_errors ++
      " in the Zone data group."]
  let mismatch_fluid_loop_errors := check_fluid_loop_association rpd
  let passed4 := passed3 && mismatch_fluid_loop_errors.isEmpty
  let error4 :=
    if mismatch_fluid_loop_errors.isEmpty then error3
    else error3 ++ ["Cannot find fluid loop " ++ pyReprList mismatch_fluid_loop_errors ++
      " in the FluidLoop data group."]
  let mismatch_schedule_errors := check_schedule_association rpd
  let passed5 := passed4 && mismatch_schedule_errors.isEmpty
  let error5 :=
    if mismatch_schedule_errors.isEmpty then error4
    else error4 ++ ["Cannot find schedule " ++ pyReprList mismatch_schedule_errors ++
      " in the Schedule data group."]
  let mismatch_fluid_loop_piping_errors := check_fluid_loop_or_piping_association rpd
  let passed6 := passed5 && mismatch_fluid_loop_piping_errors.isEmpty
  let error6 :=
    if mismatch_fluid_loop_piping_errors.isEmpty then error5
    else error5 ++ ["Cannot find piping " ++ pyReprList mismatch_schedule_errors ++
      " in the FluidLoop or ServiceWaterHeatingDistributionSystems data group."]
  let mismatch_service_water_heating_errors := check_service_water_heating_association rpd
  let passed7 := passed6 && mismatch_service_water_heating_errors.isEmpty
  let error7 :=
    if mismatch_service_water_heating_errors.isEmpty then error6
    else error6 ++ ["Cannot find service water heating " ++
      pyReprList mismatch_service_water_heating_errors ++
      " in the ServiceWaterHeatingDistributionSystems data group."]
  { passed := passed7, error := if error7.isEmpty then none else some error7 }

/-- The example document of the dangling-reference contract: HVAC systems
`A` and `B`, terminals referencing `A`, `C`, `C`. -/
def hvacExampleDoc : Json :=
  Json.obj [("ruleset_model_descriptions", Json.arr [Json.obj [
    ("buildings", Json.arr [Json.obj [
      ("building_segments", Json.arr [Json.obj [
        ("heating_ventilating_air_conditioning_systems", Json.arr [
          Json.obj [("id", Json.str "A")], Json.obj [("id", Json.str "B")]]),
        ("zones", Json.arr [Json.obj [
          ("terminals", Json.arr [
            Json.obj [("served_by_heating_ventilating_air_conditioning_system", Json.str "A")],
            Json.obj [("served_by_heating_ventilating_air_conditioning_system", Json.str "C")],
            Json.obj [("served_by_heating_ventilating_air_conditioning_system", Json.str "C")]])]])]])]])]])]

/-- A document whose only ruleset model description holds two collections,
each with a duplicated id. -/
def twoDupCollectionsDoc : Json :=
  Json.obj [("ruleset_model_descriptions", Json.arr [Json.obj [
    ("widgets", Json.arr [Json.obj [("id", Json.str "a")], Json.obj [("id", Json.str "a")]]),
    ("gadgets", Json.arr [Json.obj [("id", Json.str "b")], Json.obj [("id", Json.str "b")]])]])]

/-- The 14 reference paths of `check_fluid_loop_association` other than the
twice-declared service-water-heating `hot_water_loop` path. -/
def fluid_other_reference_jsonpaths : List String :=
  ["$.ruleset_model_descriptions[*].chillers[*].cooling_loop",
   "$.ruleset_model_descriptions[*].chillers[*].condensing_loop",
   "$.ruleset_model_descriptions[*].chillers[*].heat_recovery_loop",
   "$.ruleset_model_descriptions[*].buildings[*].building_segments[*].heating_ventilating_air_conditioning_systems[*].heating_system.hot_water_loop",
   "$.ruleset_model_descriptions[*].buildings[*].building_segments[*].heating_ventilating_air_conditioning_systems[*].heating_system.water_source_heat_pump_loop",
   "$.ruleset_model_descriptions[*].buildings[*].building_segments[*].heating_ventilating_air_conditioning_systems[*].cooling_system.chilled_water_loop",
   "$.ruleset_model_descriptions[*].buildings[*].building_segments[*].heating_ventilating_air_conditioning_systems[*].cooling_system.condenser_water_loop",
   "$.ruleset_model_descriptions[*].buildings[*].building_segments[*].zones[*].spaces[*].miscellaneous_equipment[*].energy_from_loop",
   "$.ruleset_model_descriptions[*].buildings[*].building_segments[*].zones[*].spaces[*].miscellaneous_equipment[*].remaining_fraction_to_loop",
   "$.ruleset_model_descriptions[*].buildings[*].building_segments[*].zones[*].terminals[*].cooling_from_loop",
   "$.ruleset_model_descriptions[*].buildings[*].building_segments[*].zones[*].terminals[*].heating_from_loop",
   "$.ruleset_model_descriptions[*].heat_rejections[*].loop",
   "$.ruleset_model_descriptions[*].boilers[*].loop",
   "$.ruleset_model_descriptions[*].external_fluid_sources[*].loop"]

/-! ### Helper lemmas -/

theorem danglingLoop_go (ids : List Json) (refs : List Json) (acc : List Json) :
    refs.foldl (fun acc v => if v ∈ ids then acc else acc ++ [v]) acc
      = acc ++ refs.filter (fun v => decide (v ∉ ids)) := by
  induction refs generalizing acc with
  | nil => simp
  | cons r rs ih =>
      simp only [List.foldl_cons, List.filter_cons]
      by_cases h : r ∈ ids
      · simp [h, ih]
      · simp [h, ih]

/-- The mismatch-list loop of each check keeps exactly the referenced values
outside the primary-id list, in order, duplicates preserved. -/
theorem danglingLoop_eq_filter (refs ids : List Json) :
    danglingLoop refs ids = refs.filter (fun v => decide (v ∉ ids)) := by
  simpa using danglingLoop_go ids refs []

theorem count_filter_of_pos {α : Type} [DecidableEq α] (l : List α) (p : α → Bool) (v : α)
    (h : p v = true) : (l.filter p).count v = l.count v := by
  induction l with
  | nil => rfl
  | cons x xs ih =>
      by_cases hx : x = v
      · subst hx
        simp [List.filter_cons, h, List.count_cons, ih]
      · by_cases hp : p x
        · simp [List.filter_cons, hp, List.count_cons, hx, ih]
        · simp [List.filter_cons, hp, List.count_cons, hx, ih]

/-! ### Claims -/

/-- C1: every dangling-reference check returns exactly the referenced values,
in the declaration order of the reference path expressions, restricted to the
values outside the primary-id list, order and duplicates preserved; with
primary ids `A`, `B` and references `A`, `C`, `C` the result is `C`, `C`. -/
theorem dangling_checks_filter_referenced :
    (∀ rpd : Json, check_hvac_association rpd =
      (findAllD "$.ruleset_model_descriptions[*].buildings[*].building_segments[*].zones[*].terminals[*].served_by_heating_ventilating_air_conditioning_system" rpd).filter
        (fun v => decide (v ∉ findAllD "$.ruleset_model_descriptions[*].buildings[*].building_segments[*].heating_ventilating_air_conditioning_systems[*].id" rpd)))
    ∧ (∀ rpd : Json, check_zone_association rpd =
      (findAllManyD zone_reference_jsonpaths rpd).filter
        (fun v => decide (v ∉ findAllD "$.ruleset_model_descriptions[*].buildings[*].building_segments[*].zones[*].id" rpd)))
    ∧ (∀ rpd : Json, check_schedule_association rpd =
      (findAllManyD schedule_reference_jsonpaths rpd).filter
        (fun v => decide (v ∉ findAllD "$.ruleset_model_descriptions[*].schedules[*].id" rpd)))
    ∧ (∀ rpd : Json, check_fluid_loop_association rpd =
      (findAllManyD fluid_reference_jsonpaths rpd).filter
        (fun v => decide (v ∉ findAllManyD fluid_loop_id_jsonpaths rpd)))
    ∧ (∀ rpd : Json, check_fluid_loop_or_piping_association rpd =
      (findAllD "$.ruleset_model_descriptions[*].pumps[*].loop_or_piping" rpd).filter
        (fun v => decide (v ∉ findAllManyD fluid_loop_or_piping_id_jsonpaths rpd)))
    ∧ (∀ rpd : Json, check_service_water_heating_association rpd =
      (findAllManyD service_water_heating_reference_jsonpaths rpd).filter
        (fun v => decide (v ∉ findAllD "$.ruleset_model_descriptions[*].service_water_heating_distribution_systems[*].id" rpd)))
    ∧ check_hvac_association hvacExampleDoc = [Json.str "C", Json.str "C"] := by
  refine ⟨fun rpd => danglingLoop_eq_filter _ _, fun rpd => danglingLoop_eq_filter _ _,
    fun rpd => danglingLoop_eq_filter _ _, fun rpd => danglingLoop_eq_filter _ _,
    fun rpd => danglingLoop_eq_filter _ _, fun rpd => danglingLoop_eq_filter _ _, by decide⟩

/-- C6: `find_all_by_jsonpaths` over well-formed expressions is the
concatenation of each expression's `find_all` result in declaration order, no
reordering and no deduplication; in particular on a two-expression list it is
the append of the two results. -/
theorem find_all_by_jsonpaths_concat :
    (∀ (es : List String) (d : Json), (∀ e ∈ es, (parseJsonPath e).isSome) →
      find_all_by_jsonpaths es d = Except.ok ((es.map (fun e => findAllD e d)).flatten))
    ∧ (∀ (e1 e2 : String) (d : Json), (parseJsonPath e1).isSome → (parseJsonPath e2).isSome →
      find_all_by_jsonpaths [e1, e2] d = Except.ok (findAllD e1 d ++ findAllD e2 d)) := by
  have main : ∀ (es : List String) (d : Json), (∀ e ∈ es, (parseJsonPath e).isSome) →
      find_all_by_jsonpaths es d = Except.ok ((es.map (fun e => findAllD e d)).flatten) := by
    intro es d h
    induction es with
    | nil => rfl
    | cons e rest ih =>
        obtain ⟨steps, hs⟩ := Option.isSome_iff_exists.mp (h e (by simp))
        have hrest := ih (fun x hx => h x (List.mem_cons_of_mem _ hx))
        simp only [find_all_by_jsonpaths, find_all, findAllD, hs, hrest, List.map_cons,
          List.flatten_cons]
        rfl
  refine ⟨main, fun e1 e2 d h1 h2 => ?_⟩
  have := main [e1, e2] d (by intro e he; simp at he; rcases he with h | h <;> simp [h, h1, h2])
  simpa using this

/-- C7: `find_all` evaluates totally on any document once its expression
parses — a field absent from an object or a wildcard on a non-array node
yields zero results for that branch, never an error — and the only failure is
`MalformedExpression`, raised at parse time before the document is touched. -/
theorem find_all_total_or_parse_error :
    (∀ (e : String) (d : Json) (steps : List Step), parseJsonPath e = some steps →
      find_all e d = Except.ok (evalSteps steps [d]))
    ∧ (∀ (e : String) (d d2 : Json), parseJsonPath e = none →
      find_all e d = Except.error "MalformedExpression" ∧ find_all e d = find_all e d2)
    ∧ (∀ (name : String) (fields : List (String × Json)), lookupField name fields = none →
      applyStep (Step.field name) (Json.obj fields) = [])
    ∧ (∀ j : Json, (∀ xs : List Json, j ≠ Json.arr xs) → applyStep Step.wildcard j = []) := by
  refine ⟨fun e d steps hs => ?_, fun e d d2 hn => ?_, fun name fields hl => ?_, fun j hj => ?_⟩
  · simp [find_all, hs]
  · simp [find_all, hn]
  · simp [applyStep, hl]
  · cases j with
    | arr xs => exact absurd rfl (hj xs)
    | null => rfl
    | bool b => rfl
    | num n => rfl
    | str s => rfl
    | obj fields => rfl

/-- Witness for C6 at a concrete document and expression pair. -/
theorem find_all_by_jsonpaths_concat_witness :
    find_all_by_jsonpaths ["$.a[*].x", "$.b"]
        (Json.obj [("a", Json.arr [Json.obj [("x", Json.num 1)]]), ("b", Json.num 2)])
      = Except.ok (findAllD "$.a[*].x"
          (Json.obj [("a", Json.arr [Json.obj [("x", Json.num 1)]]), ("b", Json.num 2)]) ++
        findAllD "$.b"
          (Json.obj [("a", Json.arr [Json.obj [("x", Json.num 1)]]), ("b", Json.num 2)])) :=
  find_all_by_jsonpaths_concat.2 "$.a[*].x" "$.b"
    (Json.obj [("a", Json.arr [Json.obj [("x", Json.num 1)]]), ("b", Json.num 2)])
    (by decide) (by decide)

/-- Witness for C7 at a concrete expression and document. -/
theorem find_all_total_or_parse_error_witness :
    find_all "$.a" (Json.obj []) = Except.ok (evalSteps [Step.field "a"] [Json.obj []]) :=
  find_all_total_or_parse_error.1 "$.a" (Json.obj []) [Step.field "a"] (by decide)

theorem nearestIdScan_eq_none (doc : Json) (p : List PathKey) (n : Nat)
    (h : ∀ len, 1 ≤ len → len ≤ n → hasIdAt doc p len = false) :
    nearestIdScan doc p n = none := by
  induction n with
  | zero => rfl
  | succ m ih =>
      simp only [nearestIdScan, h (m + 1) (by omega) (by omega)]
      exact ih (fun len h1 h2 => h len h1 (by omega))

theorem nearestIdScan_eq_some (doc : Json) (p : List PathKey) (n len : Nat)
    (h1 : 1 ≤ len) (h2 : len ≤ n) (hg : hasIdAt doc p len = true)
    (hmax : ∀ len2, len < len2 → len2 ≤ n → hasIdAt doc p len2 = false) :
    nearestIdScan doc p n = some len := by
  induction n with
  | zero => omega
  | succ m ih =>
      by_cases he : len = m + 1
      · subst he
        simp [nearestIdScan, hg]
      · have hfail : hasIdAt doc p (m + 1) = false := hmax (m + 1) (by omega) (by omega)
        simp only [nearestIdScan, hfail]
        simp only [Bool.false_eq_true, if_false]
        exact ih (by omega) (fun len2 ha hb => hmax len2 ha (by omega))

/-- C8: `to_nearest_id_expression` returns the expression for the longest
prefix of the traversal path whose Object carries a sibling `id` field,
extended with `id`; when no prefix qualifies — in particular on the empty
path — it returns `none`, neither an error nor a default. -/
theorem to_nearest_id_expression_spec :
    (∀ (doc : Json) (p : List PathKey),
      (∀ len, 1 ≤ len → len ≤ p.length → hasIdAt doc p len = false) →
      to_nearest_id_expression doc p = none)
    ∧ (∀ (doc : Json) (p : List PathKey) (len : Nat),
      1 ≤ len → len ≤ p.length → hasIdAt doc p len = true →
      (∀ len2, len < len2 → len2 ≤ p.length → hasIdAt doc p len2 = false) →
      to_nearest_id_expression doc p =
        some (toExpression (p.take len ++ [PathKey.key "id"])))
    ∧ (∀ doc : Json, to_nearest_id_expression doc [] = none) := by
  refine ⟨fun doc p h => ?_, fun doc p len h1 h2 hg hmax => ?_, fun doc => rfl⟩
  · simp [to_nearest_id_expression, nearestIdScan_eq_none doc p p.length h]
  · simp [to_nearest_id_expression, nearestIdScan_eq_some doc p p.length len h1 h2 hg hmax]

/-- Witness for C8: on a document where the object at `a[0]` carries an `id`
field, the traversal path `a.0.b` resolves to the expression `$.a[*].id`. -/
theorem to_nearest_id_expression_spec_witness :
    to_nearest_id_expression
        (Json.obj [("a", Json.arr [Json.obj [("id", Json.str "x"), ("b", Json.num 0)]])])
        [PathKey.key "a", PathKey.idx 0, PathKey.key "b"]
      = some (toExpression ([PathKey.key "a", PathKey.idx 0].take 2 ++ [PathKey.key "id"])) := by
  have h := to_nearest_id_expression_spec.2.1
    (Json.obj [("a", Json.arr [Json.obj [("id", Json.str "x"), ("b", Json.num 0)]])])
    [PathKey.key "a", PathKey.idx 0, PathKey.key "b"] 2
    (by omega) (by simp) (by decide)
    (by
      intro len2 ha hb
      simp at hb
      have : len2 = 3 := by omega
      subst this
      decide)
  simpa using h

/-- C9: because the service-water-heating `hot_water_loop` reference path is
declared twice in `check_fluid_loop_association`, every dangling value is
reported with twice the multiplicity of its concrete occurrences under that
path, on top of its occurrences under the other reference paths. -/
theorem fluid_loop_swh_path_counted_twice (rpd : Json) (v : Json)
    (h : v ∉ findAllManyD fluid_loop_id_jsonpaths rpd) :
    (check_fluid_loop_association rpd).count v
      = (findAllManyD fluid_other_reference_jsonpaths rpd).count v
        + 2 * (findAllD swh_hot_water_loop_jsonpath rpd).count v := by
  have hfil : (check_fluid_loop_association rpd).count v
      = (findAllManyD fluid_reference_jsonpaths rpd).count v := by
    unfold check_fluid_loop_association
    rw [danglingLoop_eq_filter]
    exact count_filter_of_pos (findAllManyD fluid_reference_jsonpaths rpd)
      (fun x => decide (x ∉ findAllManyD fluid_loop_id_jsonpaths rpd)) v (decide_eq_true h)
  rw [hfil]
  simp only [findAllManyD, fluid_reference_jsonpaths, fluid_other_reference_jsonpaths,
    List.flatMap_cons, List.flatMap_nil, List.count_append, List.append_nil]
  ring

/-- Witness for C9: a document with a single dangling service-water-heating
`hot_water_loop` reference reports it twice. -/
theorem fluid_loop_swh_path_counted_twice_witness :
    (check_fluid_loop_association
        (Json.obj [("ruleset_model_descriptions", Json.arr [Json.obj [
          ("service_water_heating_equipment", Json.arr [Json.obj [
            ("hot_water_loop", Json.str "L9")]])]])])).count (Json.str "L9") = 0 + 2 * 1 := by
  have h := fluid_loop_swh_path_counted_twice
    (Json.obj [("ruleset_model_descriptions", Json.arr [Json.obj [
      ("service_water_heating_equipment", Json.arr [Json.obj [
        ("hot_water_loop", Json.str "L9")]])]])])
    (Json.str "L9") (by decide)
  rw [h]
  decide

/-- C10: a document without the `ruleset_model_descriptions` key passes the
unique-id check: the absent field defaults to an empty instance list, so the
check returns the empty (passing) result instead of raising. -/
theorem unique_ids_absent_field_passes (fields : List (String × Json))
    (h : lookupField "ruleset_model_descriptions" fields = none) :
    check_unique_ids_in_ruleset_model_descriptions (Json.obj fields) = "" := by
  have hr : rmdsOf (Json.obj fields) = [] := by simp [rmdsOf, h]
  simp [check_unique_ids_in_ruleset_model_descriptions, badPathsList, hr]

/-- Witness for C10 on a concrete document lacking the field. -/
theorem unique_ids_absent_field_passes_witness :
    check_unique_ids_in_ruleset_model_descriptions
        (Json.obj [("weather", Json.null)]) = "" :=
  unique_ids_absent_field_passes [("weather", Json.null)] (by decide)

/-- Counterexample to C3: on a document with two duplicate-id collections the
exposed unique-id check returns one formatted message string — not a
two-element sequence of generalized-path texts, and not any of those texts. -/
theorem check_unique_ids_not_a_sequence :
    badPathsList twoDupCollectionsDoc =
      ["ruleset_model_descriptions[0].widgets", "ruleset_model_descriptions[0].gadgets"]
    ∧ check_unique_ids_in_ruleset_model_descriptions twoDupCollectionsDoc =
      "Non-unique ids for paths: ruleset_model_descriptions[0].widgets; ruleset_model_descriptions[0].gadgets"
    ∧ (∀ p ∈ badPathsList twoDupCollectionsDoc,
        check_unique_ids_in_ruleset_model_descriptions twoDupCollectionsDoc ≠ p) := by
  refine ⟨by decide, by decide, by decide⟩

/-- C3 amended: the unique-id check exposed to the orchestrator returns one
string — empty exactly when every id is unique, and otherwise the message
`Non-unique ids for paths: ` followed by the violating generalized paths (one
per collection with duplicate ids, qualified by the instance index) joined by
`; `. -/
theorem check_unique_ids_message_spec :
    ∀ rpd : Json,
      check_unique_ids_in_ruleset_model_descriptions rpd =
        (if badPathsList rpd = [] then ""
         else "Non-unique ids for paths: " ++ String.intercalate "; " (badPathsList rpd))
      ∧ (check_unique_ids_in_ruleset_model_descriptions rpd = "" ↔ badPathsList rpd = []) := by
  intro rpd
  have hmain : check_unique_ids_in_ruleset_model_descriptions rpd =
      (if badPathsList rpd = [] then ""
       else "Non-unique ids for paths: " ++ String.intercalate "; " (badPathsList rpd)) := by
    simp [check_unique_ids_in_ruleset_model_descriptions, List.isEmpty_iff]
  refine ⟨hmain, ?_⟩
  rw [hmain]
  by_cases h : badPathsList rpd = []
  · simp [h]
  · rw [if_neg h]
    simp only [h, iff_false]
    intro hcontra
    have hlen := congrArg String.length hcontra
    rw [String.length_append] at hlen
    have : ("" : String).length = 0 := rfl
    have hpos : 0 < ("Non-unique ids for paths: " : String).length := by decide
    omega

/-- C4: `validate_references` passes exactly when every check yields an empty
result, returns no error value exactly when it passes, and otherwise its
error list carries exactly one entry per failing check. -/
theorem validate_references_aggregation :
    ∀ rpd : Json,
      ((validate_references rpd).passed = true ↔
        (check_unique_ids_in_ruleset_model_descriptions rpd = "" ∧
         check_hvac_association rpd = [] ∧
         check_zone_association rpd = [] ∧
         check_fluid_loop_association rpd = [] ∧
         check_schedule_association rpd = [] ∧
         check_fluid_loop_or_piping_association rpd = [] ∧
         check_service_water_heating_association rpd = []))
      ∧ ((validate_references rpd).error = none ↔ (validate_references rpd).passed = true)
      ∧ ((validate_references rpd).error.getD []).length =
          (if check_unique_ids_in_ruleset_model_descriptions rpd = "" then 0 else 1)
          + (if check_hvac_association rpd = [] then 0 else 1)
          + (if check_zone_association rpd = [] then 0 else 1)
          + (if check_fluid_loop_association rpd = [] then 0 else 1)
          + (if check_schedule_association rpd = [] then 0 else 1)
          + (if check_fluid_loop_or_piping_association rpd = [] then 0 else 1)
          + (if check_service_water_heating_association rpd = [] then 0 else 1) := by
  intro rpd
  by_cases h1 : check_unique_ids_in_ruleset_model_descriptions rpd = "" <;>
  by_cases h2 : check_hvac_association rpd = [] <;>
  by_cases h3 : check_zone_association rpd = [] <;>
  by_cases h4 : check_fluid_loop_association rpd = [] <;>
  by_cases h5 : check_schedule_association rpd = [] <;>
  by_cases h6 : check_fluid_loop_or_piping_association rpd = [] <;>
  by_cases h7 : check_service_water_heating_association rpd = [] <;>
  simp [validate_references, h1, h2, h3, h4, h5, h6, h7]

/-- C5: whenever the fluid-loop-or-piping check reports a non-empty mismatch
list, that return value alone forces `validate_references` to fail, while the
piping error message interpolates the schedule check's mismatch list (the
copy-pasted variable on line 464 of `validate.py`). -/
theorem piping_check_controls_pass (rpd : Json)
    (h : check_fluid_loop_or_piping_association rpd ≠ []) :
    (validate_references rpd).passed = false ∧
    ("Cannot find piping " ++ pyReprList (check_schedule_association rpd) ++
      " in the FluidLoop or ServiceWaterHeatingDistributionSystems data group.") ∈
      (validate_references rpd).error.getD [] := by
  by_cases h5 : check_schedule_association rpd = [] <;>
  by_cases h7 : check_service_water_heating_association rpd = [] <;>
  simp [validate_references, h, h5, h7]

/-- Witness for C5: a pump referencing an undeclared loop fails the run, and
the piping message renders the (empty) schedule mismatch list. -/
theorem piping_check_controls_pass_witness :
    (validate_references
        (Json.obj [("ruleset_model_descriptions", Json.arr [Json.obj [
          ("pumps", Json.arr [Json.obj [("loop_or_piping", Json.str "P1")]])]])])).passed = false ∧
    ("Cannot find piping " ++ pyReprList (check_schedule_association
        (Json.obj [("ruleset_model_descriptions", Json.arr [Json.obj [
          ("pumps", Json.arr [Json.obj [("loop_or_piping", Json.str "P1")]])]])])) ++
      " in the FluidLoop or ServiceWaterHeatingDistributionSystems data group.") ∈
      (validate_references
        (Json.obj [("ruleset_model_descriptions", Json.arr [Json.obj [
          ("pumps", Json.arr [Json.obj [("loop_or_piping", Json.str "P1")]])]])])).error.getD [] :=
  piping_check_controls_pass
    (Json.obj [("ruleset_model_descriptions", Json.arr [Json.obj [
      ("pumps", Json.arr [Json.obj [("loop_or_piping", Json.str "P1")]])]])])
    (by decide)

mutual

theorem jsonPathsToListsAux_extends : ∀ (j : Json) (pre q : String),
    q ∈ jsonPathsToListsAux j pre → ∃ t, q.data = pre.data ++ t
  | Json.null, pre, q => by simp [jsonPathsToListsAux]
  | Json.bool b, pre, q => by simp [jsonPathsToListsAux]
  | Json.num n, pre, q => by simp [jsonPathsToListsAux]
  | Json.str s, pre, q => by simp [jsonPathsToListsAux]
  | Json.obj fields, pre, q => by
      intro hq
      simp only [jsonPathsToListsAux] at hq
      exact jsonPathsToListsObj_extends fields pre q hq
  | Json.arr xs, pre, q => by
      intro hq
      simp only [jsonPathsToListsAux, List.mem_cons] at hq
      rcases hq with rfl | hq
      · exact ⟨[], by simp⟩
      · obtain ⟨t, ht⟩ := jsonPathsToListsArr_extends xs (pre ++ "[*]") q hq
        exact ⟨"[*]".data ++ t, by rw [ht, String.data_append, List.append_assoc]⟩

theorem jsonPathsToListsObj_extends : ∀ (fields : List (String × Json)) (pre q : String),
    q ∈ jsonPathsToListsObj fields pre → ∃ t, q.data = pre.data ++ t
  | [], pre, q => by simp [jsonPathsToListsObj]
  | (k, v) :: rest, pre, q => by
      intro hq
      simp only [jsonPathsToListsObj, List.mem_append] at hq
      rcases hq with hq | hq
      · obtain ⟨t, ht⟩ := jsonPathsToListsAux_extends v (pre ++ "." ++ k) q hq
        refine ⟨String.data "." ++ k.data ++ t, ?_⟩
        rw [ht, String.data_append, String.data_append, List.append_assoc, List.append_assoc,
          List.append_assoc]
      · exact jsonPathsToListsObj_extends rest pre q hq

theorem jsonPathsToListsArr_extends : ∀ (xs : List Json) (pre q : String),
    q ∈ jsonPathsToListsArr xs pre → ∃ t, q.data = pre.data ++ t
  | [], pre, q => by simp [jsonPathsToListsArr]
  | x :: rest, pre, q => by
      intro hq
      simp only [jsonPathsToListsArr, List.mem_append] at hq
      rcases hq with hq | hq
      · exact jsonPathsToListsAux_extends x pre q hq
      · exact jsonPathsToListsArr_extends rest pre q hq

end

/-- Every generalized path discovered inside an instance begins with the
root marker `$`. -/
theorem json_paths_to_lists_head (rmi : Json) (q : String)
    (hq : q ∈ json_paths_to_lists rmi) : ∃ t, q.data = '$' :: t := by
  have := jsonPathsToListsAux_extends rmi "$" q (List.mem_dedup.mp hq)
  simpa using this

/-- The formatter `badPathFmt i` tells apart any two list paths rooted at the document marker. -/
theorem badPathFmt_inj (i : Nat) (p p2 : String)
    (hp : ∃ t, p.data = '$' :: t) (hp2 : ∃ t, p2.data = '$' :: t)
    (h : badPathFmt i p = badPathFmt i p2) : p = p2 := by
  obtain ⟨t, ht⟩ := hp
  obtain ⟨t2, ht2⟩ := hp2
  have hdata := congrArg String.data h
  rw [badPathFmt, badPathFmt, String.data_append, String.data_append] at hdata
  have hdrop : (pyDrop p 1).data = (pyDrop p2 1).data := List.append_cancel_left hdata
  have : p.data.drop 1 = p2.data.drop 1 := hdrop
  rw [ht, ht2] at this
  simp only [List.drop_succ_cons, List.drop_zero] at this
  exact String.ext (by rw [ht, ht2, this])

/-- The duplicate-id guard of `badPathsForRmi` in the source's
`len(ids) != len(set(ids))` form agrees with non-distinctness. -/
theorem length_ne_dedup_iff {α : Type} [DecidableEq α] (l : List α) :
    l.length ≠ l.dedup.length ↔ ¬ l.Nodup := by
  constructor
  · intro h hn
    exact h (by rw [hn.dedup])
  · intro h hl
    exact h (by
      have hsub : l.dedup.Sublist l := List.dedup_sublist l
      have : l.dedup = l := hsub.eq_of_length hl.symm
      rw [← this]
      exact List.nodup_dedup l)

theorem count_filterMap_fmt (i : Nat) (cond : String → Prop) [DecidablePred cond] :
    ∀ l : List String, l.Nodup → (∀ a ∈ l, ∃ t, a.data = '$' :: t) →
    ∀ p ∈ l, cond p →
    (l.filterMap (fun a => if cond a then some (badPathFmt i a) else none)).count
      (badPathFmt i p) = 1 := by
  intro l
  induction l with
  | nil => intro _ _ p hp; simp at hp
  | cons a l ih =>
      intro hnd hpre p hp hc
      obtain ⟨hna, hnd2⟩ := List.nodup_cons.mp hnd
      rcases List.mem_cons.mp hp with rfl | hpl
      · have htail : (l.filterMap
            (fun a => if cond a then some (badPathFmt i a) else none)).count
              (badPathFmt i p) = 0 := by
          rw [List.count_eq_zero]
          intro hmem
          obtain ⟨a2, ha2, hfa2⟩ := List.mem_filterMap.mp hmem
          by_cases hc2 : cond a2
          · rw [if_pos hc2] at hfa2
            have heq : badPathFmt i a2 = badPathFmt i p := Option.some.inj hfa2
            have ha2p : a2 = p :=
              badPathFmt_inj i a2 p (hpre a2 (List.mem_cons_of_mem _ ha2)) (hpre p hp) heq
            exact hna (ha2p ▸ ha2)
          · rw [if_neg hc2] at hfa2
            cases hfa2
        simp [List.filterMap_cons, if_pos hc, List.count_cons, htail]
      · have hpa : p ≠ a := fun h => hna (h ▸ hpl)
        have ihc := ih hnd2 (fun x hx => hpre x (List.mem_cons_of_mem _ hx)) p hpl hc
        by_cases hca : cond a
        · have hne : ¬ (badPathFmt i a = badPathFmt i p) := fun h =>
            hpa (badPathFmt_inj i p a (hpre p hp) (hpre a (List.mem_cons_self _ _)) h.symm)
          simp [List.filterMap_cons, if_pos hca, List.count_cons, ihc, hne]
        · simp [List.filterMap_cons, if_neg hca, ihc]

/-- C2: the unique-id check walks the ruleset model description instances
independently; every reported entry is an absolute path qualified by its
instance index, and a generalized list path whose `[*].id` values contain a
duplicate is flagged exactly once, however many duplicates it holds. -/
theorem unique_check_flags_path_once :
    (∀ rpd : Json, badPathsList rpd =
        (rmdsOf rpd).enum.flatMap (fun pr => badPathsForRmi pr.1 pr.2))
    ∧ (∀ (i : Nat) (rmi : Json) (s : String), s ∈ badPathsForRmi i rmi →
        ∃ listPath ∈ json_paths_to_lists rmi, s = badPathFmt i listPath ∧
          ¬ (findAllD (listPath ++ "[*].id") rmi).Nodup)
    ∧ (∀ (i : Nat) (rmi : Json) (listPath : String),
        listPath ∈ json_paths_to_lists rmi →
        ¬ (findAllD (listPath ++ "[*].id") rmi).Nodup →
        (badPathsForRmi i rmi).count (badPathFmt i listPath) = 1) := by
  refine ⟨fun rpd => rfl, fun i rmi s hs => ?_, fun i rmi listPath hmem hdup => ?_⟩
  · obtain ⟨lp, hlp, heq⟩ := List.mem_filterMap.mp hs
    by_cases hg : (findAllD (lp ++ "[*].id") rmi).length
        ≠ (findAllD (lp ++ "[*].id") rmi).dedup.length
    · rw [if_pos hg] at heq
      exact ⟨lp, hlp, (Option.some.inj heq).symm, (length_ne_dedup_iff _).mp hg⟩
    · rw [if_neg hg] at heq
      cases heq
  · have hguard : (findAllD (listPath ++ "[*].id") rmi).length
        ≠ (findAllD (listPath ++ "[*].id") rmi).dedup.length :=
      (length_ne_dedup_iff _).mpr hdup
    exact count_filterMap_fmt i
      (fun lp => (findAllD (lp ++ "[*].id") rmi).length
        ≠ (findAllD (lp ++ "[*].id") rmi).dedup.length)
      (json_paths_to_lists rmi) (List.nodup_dedup _)
      (fun a ha => json_paths_to_lists_head rmi a ha) listPath hmem hguard

/-- Witness for C2: a single instance holding one collection with a repeated
id is flagged exactly once under its index-qualified absolute path. -/
theorem unique_check_flags_path_once_witness :
    (badPathsForRmi 0 (Json.obj [("zones", Json.arr [Json.obj [("id", Json.str "z")],
        Json.obj [("id", Json.str "z")]])])).count (badPathFmt 0 "$.zones") = 1 :=
  unique_check_flags_path_once.2.2 0
    (Json.obj [("zones", Json.arr [Json.obj [("id", Json.str "z")],
      Json.obj [("id", Json.str "z")]])])
    "$.zones" (by decide) (by decide)

end RPD
